import Mathlib

/-!
Shallow embedding of `src/allauth/socialaccount/providers/oauth2/views.py`
(the OAuth2 flow engine of django-allauth): the adapter configuration,
token parsing, and the login / callback dispatch flow.

Modelling conventions:
* Python exceptions become an explicit `PyError` type; a computation that can
  raise returns `Except PyError _`.
* Django request query parameters become an association list
  `List (String × String)`; a parameter that occurs with an empty value is a
  pair `(k, "")`, distinct from the key being absent.
* The external CSRF state store (`SocialLogin.stash_state` /
  `verify_and_unstash_state` / `unstash_state`, defined in
  `allauth.socialaccount.models`, outside this file's source) is modelled from
  the spec as an association list from state tokens to pending-login metadata,
  with a consuming (delete-on-read) verification.
* Collaborators performing I/O (the OAuth2 client's token exchange, the
  adapter's `complete_login`) are oracle functions supplied in an environment
  record; each dispatch additionally returns a trace of `Event`s recording, in
  order, the observable collaborator interactions (client construction, token
  exchange, token parse, login completion, state verification, stash).
* `timezone.now()` is a parameter `now : Int` (seconds); `timedelta(seconds=n)`
  is addition of `n`.
-/

namespace Allauth

/-- Python exception classes appearing in the flow:
`KeyError`/`ValueError` are raised by `data["access_token"]` / `int(...)` in
`parse_token`; `PermissionDenied`, `OAuth2Error`, `RequestException`,
`ProviderException` are the classes named in the callback's `except` clause
(views.py lines 162-167); `OAuth2Error` is also caught by the login view. -/
inductive PyError where
  | keyError (key : String)
  | valueError (msg : String)
  | permissionDenied
  | oauth2Error (msg : String)
  | requestException (msg : String)
  | providerException (msg : String)
  deriving Repr, DecidableEq

/-- The pending-login metadata stashed under a CSRF state token
(e.g. the requested action). -/
abbrev StateMeta := List (String × String)

/-- The raw token response handed back by the OAuth2 client's
`get_access_token`: a string-to-string mapping (`data` in `parse_token`). -/
abbrev RawData := List (String × String)

/-- Dictionary lookup, `data.get(key)` / `data[key]` resolution. -/
def rawGet (data : RawData) (key : String) : Option String :=
  match data.find? (fun p => p.1 == key) with
  | some p => some p.2
  | none => none

/-- Whitespace stripped by Python `int(...)` around a numeric string. -/
def pySpace (c : Char) : Bool := c == ' ' || c == '\t' || c == '\n' || c == '\r'

/-- Python `int(s)` on a string: optional surrounding whitespace, optional
sign, then decimal digits; `none` when the string does not parse
(where CPython raises `ValueError`). -/
def pyParseInt (s : String) : Option Int :=
  let cs := ((s.data.dropWhile pySpace).reverse.dropWhile pySpace).reverse
  let signDigits : Bool × List Char :=
    match cs with
    | '-' :: rest => (true, rest)
    | '+' :: rest => (false, rest)
    | rest => (false, rest)
  let digits := signDigits.2
  if !digits.isEmpty && digits.all (fun c => c.isDigit) then
    let n : Nat := digits.foldl (fun acc c => 10 * acc + (c.toNat - 48)) 0
    some (if signDigits.1 then -(n : Int) else (n : Int))
  else none

/-- Python truthiness of `request.GET.get(param)`-style values:
`None` and the empty string are falsy, any other string is truthy. -/
def pyTruthy : Option String → Bool
  | some s => s != ""
  | none => false

/-- The `SocialToken` fields assigned by `parse_token`:
`token` (the access token), `token_secret` (the refresh token) and
`expires_at`.  The `token.app = app` attachment of the external application
record (views.py line 146) is outside the flow engine and elided. -/
structure SocialToken where
  token : String
  token_secret : String := ""
  expires_at : Option Int := none
  deriving Repr, DecidableEq

/-- The `SocialLogin` produced by the adapter's `complete_login` and decorated
by the callback: `account` stands for the opaque adapter-produced identity
payload; the engine assigns `token` and `state`. -/
structure SocialLogin where
  account : String := ""
  token : Option SocialToken := none
  state : StateMeta := []
  deriving Repr, DecidableEq

/-- The per-provider configuration attributes of `OAuth2Adapter`
(views.py lines 25-34).  `authorize_url` and `access_token_url` are declared
by concrete per-provider subclasses. -/
structure OAuth2Adapter where
  provider_id : String
  authorize_url : String := ""
  access_token_url : String := ""
  expires_in_key : String := "expires_in"
  supports_state : Bool := true
  access_token_method : String := "POST"
  login_cancelled_error : String := "access_denied"
  scope_delimiter : String := " "
  basic_auth : Bool := false
  deriving Repr, DecidableEq

/-- `OAuth2Adapter.parse_token` (views.py lines 53-59):

    token = SocialToken(token=data["access_token"])        -- KeyError if absent
    token.token_secret = data.get("refresh_token", "")
    expires_in = data.get(self.expires_in_key, None)
    if expires_in:                                         -- falsy: skipped
        token.expires_at = now + timedelta(seconds=int(expires_in))
                                                           -- ValueError if unparseable
    return token
-/
def OAuth2Adapter.parse_token (ad : OAuth2Adapter) (now : Int) (data : RawData) :
    Except PyError SocialToken :=
  match rawGet data "access_token" with
  | none => .error (.keyError "access_token")
  | some access =>
    let secret := (rawGet data "refresh_token").getD ""
    match rawGet data ad.expires_in_key with
    | some v =>
      if v != "" then
        match pyParseInt v with
        | some n =>
          .ok { token := access, token_secret := secret, expires_at := some (now + n) }
        | none => .error (.valueError v)
      else .ok { token := access, token_secret := secret }
    | none => .ok { token := access, token_secret := secret }

/-- The external CSRF state store: state token to pending-login metadata.
Modelled from the spec: the store under a session (outside this file's
source); entries it has dropped (expired TTL or consumed) are simply absent. -/
abbrev StateStore := List (String × StateMeta)

/-- Store lookup by state token. -/
def lookupStore (store : StateStore) (key : String) : Option StateMeta :=
  match store.find? (fun p => p.1 == key) with
  | some p => some p.2
  | none => none

/-- Delete-on-read removal of a state token from the store. -/
def consumeStore (store : StateStore) (key : String) : StateStore :=
  store.filter (fun p => p.1 != key)

/-- The CSRF-verification failure.  Modelled from the spec: the state
mismatch error (spec's `StateMismatchError`) is `PermissionDenied` raised by
`SocialLogin.verify_and_unstash_state`, one of the classes classified by the
callback's `except` clause. -/
def stateMismatchError : PyError := .permissionDenied

/-- Modelled from the spec: `SocialLogin.verify_and_unstash_state(request,
state)` (in `allauth.socialaccount.models`, not under this file's source) —
the consuming read of the external state store: look up the callback's
`state` token; fail with the state-mismatch error if it is absent, expired,
or already consumed; on success return the stashed pending-login metadata
and delete the entry (single use enforced by delete-on-read). -/
def verify_and_unstash_state (store : StateStore) (state : Option String) :
    Except PyError StateMeta × StateStore :=
  match state with
  | some s =>
    match lookupStore store s with
    | some meta => (.ok meta, consumeStore store s)
    | none => (.error stateMismatchError, store)
  | none => (.error stateMismatchError, store)

/-- Modelled from the spec: `SocialLogin.unstash_state(request)` (in
`allauth.socialaccount.models`, not under this file's source) — the un-keyed
fallback for providers without state support: return whatever pending-login
metadata is available, without matching a token, consuming it; fail with the
classified mismatch error when nothing is stashed. -/
def unstash_state (store : StateStore) : Except PyError StateMeta × StateStore :=
  match store with
  | (_, meta) :: rest => (.ok meta, rest)
  | [] => (.error stateMismatchError, [])

/-- Modelled from the spec: `SocialLogin.stash_state(request)` (in
`allauth.socialaccount.models`, not under this file's source) — generate a
fresh CSRF state token, stash the pending-login metadata under it in the
external store, and return the token.  The fresh token and the metadata are
parameters (their generation is external randomness / request
introspection). -/
def stash_state (store : StateStore) (fresh : String) (meta : StateMeta) :
    String × StateStore :=
  (fresh, (fresh, meta) :: store)

/-- An inbound request: its query parameters and the session's external
CSRF state store. -/
structure Request where
  params : List (String × String)
  store : StateStore
  deriving Repr, DecidableEq

/-- Modelled from the spec: `allauth.utils.get_request_param(request, param)`
(not under this file's source) — read the named callback parameter from the
request's query string, `none` when absent. -/
def get_request_param (req : Request) (param : String) : Option String :=
  match req.params.find? (fun p => p.1 == param) with
  | some p => some p.2
  | none => none

/-- Modelled from the spec: the `AuthError` classification codes of
`allauth.socialaccount.providers.base` (not under this file's source). -/
inductive AuthError where
  | cancelled
  | unknown
  deriving Repr, DecidableEq

/-- Modelled from the spec: `AuthAction.AUTHENTICATE`, the default action
(`"authenticate"`) of `allauth.socialaccount.providers.base` (not under this
file's source). -/
def AuthAction.AUTHENTICATE : String := "authenticate"

/-- Observable collaborator interactions, recorded in dispatch order. -/
inductive Event where
  | getClient
  | tokenExchange (code : String)
  | parseToken
  | completeLogin
  | verifyState (state : Option String)
  | unstash
  | getAuthParams (action : String)
  | stashState
  | buildRedirectURL
  deriving Repr, DecidableEq, BEq

/-- Outcome of a callback dispatch:
`renderError` is `render_authentication_error(request, provider_id, error=, exception=)`;
`completed` is the hand-off `complete_social_login(request, login)` to the
identity-completion collaborator; `raised e` is an exception propagating out
of `dispatch` uncaught. -/
inductive DispatchResult where
  | renderError (provider : String) (error : Option AuthError) (exc : Option PyError)
  | completed (login : SocialLogin)
  | raised (e : PyError)
  deriving Repr, DecidableEq

/-- Collaborators of the callback dispatch:
`get_access_token` is the client's code-for-token exchange (the network
call inside `get_access_token_data`, views.py lines 61-63);
`complete_login` is the adapter's identity completion. -/
structure CallbackEnv where
  get_access_token : String → Except PyError RawData
  complete_login : SocialToken → RawData → Except PyError SocialLogin

/-- Exception classes matched by the callback's `except` clause
(views.py lines 162-167): `PermissionDenied`, `OAuth2Error`,
`RequestException`, `ProviderException`. -/
def caughtByCallback : PyError → Bool
  | .permissionDenied => true
  | .oauth2Error _ => true
  | .requestException _ => true
  | .providerException _ => true
  | _ => false

/-- Routing of an exception raised inside the callback's `try` block: the
classes of the `except` clause are rendered as an authentication error;
any other exception propagates out of `dispatch`. -/
def routeCallbackException (ad : OAuth2Adapter) (e : PyError) : DispatchResult :=
  if caughtByCallback e then .renderError ad.provider_id none (some e) else .raised e

/-- `OAuth2CallbackView.dispatch` (views.py lines 124-170):

    auth_error = get_request_param(request, "error")
    code = get_request_param(request, "code")
    if auth_error or not code:
        error = CANCELLED if auth_error == adapter.login_cancelled_error else UNKNOWN
        return render_authentication_error(request, provider_id, error=error)
    app = ...get_app(...); client = self.get_client(...)
    try:
        token_data = adapter.get_access_token_data(...)   -- client.get_access_token(code)
        token = adapter.parse_token(data=token_data)
        login = adapter.complete_login(request, app, token, response=token_data)
        login.token = token
        state = get_request_param(request, "state")
        if adapter.supports_state:
            login.state = SocialLogin.verify_and_unstash_state(request, state)
        else:
            login.state = SocialLogin.unstash_state(request)
        return complete_social_login(request, login)
    except (PermissionDenied, OAuth2Error, RequestException, ProviderException) as e:
        return render_authentication_error(request, provider_id, exception=e)

Returns the outcome, the state store after the call, and the event trace. -/
def OAuth2CallbackView.dispatch (ad : OAuth2Adapter) (env : CallbackEnv) (now : Int)
    (req : Request) : DispatchResult × StateStore × List Event :=
  let auth_error := get_request_param req "error"
  let code := get_request_param req "code"
  if pyTruthy auth_error || !pyTruthy code then
    let error :=
      if auth_error == some ad.login_cancelled_error then AuthError.cancelled
      else AuthError.unknown
    (.renderError ad.provider_id (some error) none, req.store, [])
  else
    let c := code.getD ""
    match env.get_access_token c with
    | .error e => (routeCallbackException ad e, req.store, [.getClient, .tokenExchange c])
    | .ok token_data =>
      match ad.parse_token now token_data with
      | .error e =>
        (routeCallbackException ad e, req.store, [.getClient, .tokenExchange c, .parseToken])
      | .ok token =>
        match env.complete_login token token_data with
        | .error e =>
          (routeCallbackException ad e, req.store,
            [.getClient, .tokenExchange c, .parseToken, .completeLogin])
        | .ok login0 =>
          let login1 : SocialLogin := { login0 with token := some token }
          let st := get_request_param req "state"
          if ad.supports_state then
            match verify_and_unstash_state req.store st with
            | (.error e, store1) =>
              (routeCallbackException ad e, store1,
                [.getClient, .tokenExchange c, .parseToken, .completeLogin, .verifyState st])
            | (.ok meta, store1) =>
              (.completed { login1 with state := meta }, store1,
                [.getClient, .tokenExchange c, .parseToken, .completeLogin, .verifyState st])
          else
            match unstash_state req.store with
            | (.error e, store1) =>
              (routeCallbackException ad e, store1,
                [.getClient, .tokenExchange c, .parseToken, .completeLogin, .unstash])
            | (.ok meta, store1) =>
              (.completed { login1 with state := meta }, store1,
                [.getClient, .tokenExchange c, .parseToken, .completeLogin, .unstash])

/-- Outcome of a login dispatch: `redirect` is `HttpResponseRedirect`,
`renderError` the `except OAuth2Error` branch, `raised` an uncaught
exception. -/
inductive LoginResult where
  | redirect (url : String)
  | renderError (provider : String) (exc : PyError)
  | raised (e : PyError)
  deriving Repr, DecidableEq

/-- Collaborators of the login dispatch: the provider's auth params for an
action, and the client's redirect-URL construction
`client.get_redirect_url(auth_url, auth_params)` — which also uses
`client.state`, passed here as its third argument. -/
structure LoginEnv where
  get_auth_params : String → List (String × String)
  get_redirect_url : String → List (String × String) → String → Except PyError String

/-- The action of a login request (views.py line 108):
`request.GET.get('action', AuthAction.AUTHENTICATE)` — a plain dictionary
lookup with a default, no truthiness test. -/
def loginAction (req : Request) : String :=
  match req.params.find? (fun p => p.1 == "action") with
  | some p => p.2
  | none => AuthAction.AUTHENTICATE

/-- `OAuth2LoginView.dispatch` (views.py lines 104-119):

    provider = adapter.get_provider(); app = provider.get_app(request)
    client = self.get_client(request, app)          -- builds the callback URL
    action = request.GET.get('action', AuthAction.AUTHENTICATE)
    auth_url = adapter.authorize_url
    auth_params = provider.get_auth_params(request, action)
    client.state = SocialLogin.stash_state(request)
    try:
        return HttpResponseRedirect(client.get_redirect_url(auth_url, auth_params))
    except OAuth2Error as e:
        return render_authentication_error(request, provider.id, exception=e)

Returns the outcome, the state store after the call, and the event trace.
`fresh`/`meta` are the fresh state token generated by `stash_state` and the
pending-login metadata it stashes. -/
def OAuth2LoginView.dispatch (ad : OAuth2Adapter) (env : LoginEnv) (req : Request)
    (fresh : String) (meta : StateMeta) : LoginResult × StateStore × List Event :=
  let action := loginAction req
  let auth_url := ad.authorize_url
  let auth_params := env.get_auth_params action
  let (state, store1) := stash_state req.store fresh meta
  match env.get_redirect_url auth_url auth_params state with
  | .ok url =>
    (.redirect url, store1,
      [.getClient, .getAuthParams action, .stashState, .buildRedirectURL])
  | .error e =>
    ((match e with
      | .oauth2Error m => .renderError ad.provider_id (.oauth2Error m)
      | other => .raised other), store1,
      [.getClient, .getAuthParams action, .stashState, .buildRedirectURL])

/-- Test for the token-exchange event (the client's network call). -/
def isTokenExchange : Event → Bool
  | .tokenExchange _ => true
  | _ => false

/-! Concrete inputs used to instantiate the theorems. -/

/-- An adapter with the default configuration. -/
def demoAdapter : OAuth2Adapter := { provider_id := "prov" }

/-- Collaborators whose exchange succeeds with a well-formed token response
and whose identity completion succeeds. -/
def demoEnv : CallbackEnv where
  get_access_token := fun _ => .ok [("access_token", "abc"), ("expires_in", "3600")]
  complete_login := fun _ _ => .ok { account := "alice" }

/-- A callback request carrying a code and a stashed, unconsumed state. -/
def demoReq : Request where
  params := [("code", "c0"), ("state", "s0")]
  store := [("s0", [("action", "authenticate")])]

/-- Collaborators whose token exchange fails with a protocol error. -/
def errEnv : CallbackEnv where
  get_access_token := fun _ => .error (.oauth2Error "boom")
  complete_login := fun _ _ => .ok { account := "alice" }

/-- Collaborators whose exchange succeeds with a token response lacking
`access_token`. -/
def badTokenEnv : CallbackEnv where
  get_access_token := fun _ => .ok [("refresh_token", "r")]
  complete_login := fun _ _ => .ok { account := "alice" }

/-- Login collaborators: constant auth params, redirect URL embedding the
state. -/
def demoLoginEnv : LoginEnv where
  get_auth_params := fun _ => [("scope", "email")]
  get_redirect_url := fun u _ s => .ok (u ++ "?state=" ++ s)

/-! Theorems settling the claims.  Helper lemmas first. -/

/-- Reading a query parameter does not depend on the state store. -/
theorem get_request_param_store (req : Request) (st : StateStore) (k : String) :
    get_request_param { req with store := st } k = get_request_param req k := rfl

/-- The consuming read deletes every entry under the consumed key. -/
theorem lookupStore_consumeStore (store : StateStore) (s : String) :
    lookupStore (consumeStore store s) s = none := by
  induction store with
  | nil => rfl
  | cons p rest ih =>
    by_cases h : p.1 = s
    · simpa [consumeStore, List.filter_cons, h] using ih
    · simpa [consumeStore, lookupStore, List.filter_cons, List.find?_cons, h] using ih

/-- A failing state verification fails with the classified mismatch error. -/
theorem verify_error_classified (store : StateStore) (st : Option String) (e : PyError)
    (s1 : StateStore) (h : verify_and_unstash_state store st = (.error e, s1)) :
    caughtByCallback e = true := by
  have he : e = stateMismatchError := by
    cases st with
    | none =>
      simp only [verify_and_unstash_state, Prod.mk.injEq, Except.error.injEq] at h
      exact h.1.symm
    | some s =>
      cases hl : lookupStore store s with
      | none =>
        simp only [verify_and_unstash_state, hl, Prod.mk.injEq, Except.error.injEq] at h
        exact h.1.symm
      | some m =>
        simp only [verify_and_unstash_state, hl, Prod.mk.injEq] at h
        exact absurd h.1 (by simp)
  rw [he]; rfl

/-- A failing un-keyed unstash fails with the classified mismatch error. -/
theorem unstash_error_classified (store : StateStore) (e : PyError) (s1 : StateStore)
    (h : unstash_state store = (.error e, s1)) : caughtByCallback e = true := by
  have he : e = stateMismatchError := by
    cases store with
    | nil =>
      simp only [unstash_state, Prod.mk.injEq, Except.error.injEq] at h
      exact h.1.symm
    | cons p rest =>
      cases p
      simp only [unstash_state, Prod.mk.injEq] at h
      exact absurd h.1 (by simp)
  rw [he]; rfl

/-- On a well-formed raw response (`access_token` present; expiry field, when
present and non-empty, parseable) `parse_token` succeeds. -/
theorem parse_token_ok_of_wf (ad : OAuth2Adapter) (now : Int) (data : RawData)
    (hsome : (rawGet data "access_token").isSome)
    (hexp : ∀ v, rawGet data ad.expires_in_key = some v → v ≠ "" →
      (pyParseInt v).isSome) :
    ∃ tok, ad.parse_token now data = .ok tok := by
  obtain ⟨a, ha⟩ := Option.isSome_iff_exists.mp hsome
  cases hv : rawGet data ad.expires_in_key with
  | none =>
    exact ⟨{ token := a, token_secret := (rawGet data "refresh_token").getD "" },
      by simp only [OAuth2Adapter.parse_token, ha, hv]⟩
  | some v =>
    by_cases hne : v = ""
    · subst hne
      exact ⟨{ token := a, token_secret := (rawGet data "refresh_token").getD "" },
        by simp only [OAuth2Adapter.parse_token, ha, hv, bne_self_eq_false,
          Bool.false_eq_true, if_false]⟩
    · obtain ⟨n, hn⟩ := Option.isSome_iff_exists.mp (hexp v hv hne)
      exact ⟨{ token := a, token_secret := (rawGet data "refresh_token").getD "",
               expires_at := some (now + n) },
        by simp only [OAuth2Adapter.parse_token, ha, hv, hn, bne_iff_ne, ne_eq,
          hne, not_false_eq_true, if_true]⟩

/-- Every callback dispatch produces one of six trace shapes, each a prefix
of the full exchange-then-verify sequence. -/
theorem callback_trace_shape (ad : OAuth2Adapter) (env : CallbackEnv) (now : Int)
    (req : Request) :
    (OAuth2CallbackView.dispatch ad env now req).2.2 = [] ∨
    (∃ c, (OAuth2CallbackView.dispatch ad env now req).2.2 ∈ ([
      [Event.getClient, .tokenExchange c],
      [Event.getClient, .tokenExchange c, .parseToken],
      [Event.getClient, .tokenExchange c, .parseToken, .completeLogin],
      [Event.getClient, .tokenExchange c, .parseToken, .completeLogin,
        .verifyState (get_request_param req "state")],
      [Event.getClient, .tokenExchange c, .parseToken, .completeLogin, .unstash]] :
      List (List Event))) := by
  cases herr : pyTruthy (get_request_param req "error") with
  | true => left; simp [OAuth2CallbackView.dispatch, herr]
  | false =>
    cases hcode : pyTruthy (get_request_param req "code") with
    | false => left; simp [OAuth2CallbackView.dispatch, herr, hcode]
    | true =>
      right
      refine ⟨(get_request_param req "code").getD "", ?_⟩
      cases hex : env.get_access_token ((get_request_param req "code").getD "") with
      | error e => simp [OAuth2CallbackView.dispatch, herr, hcode, hex]
      | ok data =>
        cases hp : ad.parse_token now data with
        | error e => simp [OAuth2CallbackView.dispatch, herr, hcode, hex, hp]
        | ok token =>
          cases hc : env.complete_login token data with
          | error e => simp [OAuth2CallbackView.dispatch, herr, hcode, hex, hp, hc]
          | ok login0 =>
            cases hs : ad.supports_state with
            | true =>
              rcases hv : verify_and_unstash_state req.store
                (get_request_param req "state") with ⟨res, store1⟩
              cases res <;>
                simp [OAuth2CallbackView.dispatch, herr, hcode, hex, hp, hc, hs, hv]
            | false =>
              rcases hu : unstash_state req.store with ⟨res, store1⟩
              cases res <;>
                simp [OAuth2CallbackView.dispatch, herr, hcode, hex, hp, hc, hs, hu]

/-- C6 counterexample: the claim asserts that for every raw token response
containing `access_token`, `ParseToken` returns a `Token`.  At the concrete
response with `access_token` present but an expiry field that does not parse
as an integer, `parse_token` does not return a token: it raises `ValueError`
(from Python's `int("x")`). -/
theorem C6_counterexample :
    OAuth2Adapter.parse_token { provider_id := "p" } 0
      [("access_token", "abc"), ("expires_in", "x")] =
      .error (.valueError "x") := rfl

/-- C6 (amended): for every raw token response containing `access_token`
whose expiry field, whenever present with a non-empty value, parses as an
integer, `parse_token` returns a token with `token` equal to
`raw["access_token"]`, `token_secret` equal to `raw.get("refresh_token","")`,
and `expires_at = now + n` whenever the expiry field is present, non-empty,
and parses to `n` (and no expiry when the field is absent or empty). -/
theorem C6_parse_token_success (ad : OAuth2Adapter) (now : Int) (data : RawData)
    (access : String) (hacc : rawGet data "access_token" = some access)
    (hexp : ∀ v, rawGet data ad.expires_in_key = some v → v ≠ "" →
      (pyParseInt v).isSome) :
    ∃ tok, ad.parse_token now data = .ok tok ∧
      tok.token = access ∧
      tok.token_secret = (rawGet data "refresh_token").getD "" ∧
      (∀ v n, rawGet data ad.expires_in_key = some v → v ≠ "" → pyParseInt v = some n →
        tok.expires_at = some (now + n)) ∧
      ((rawGet data ad.expires_in_key = none ∨ rawGet data ad.expires_in_key = some "") →
        tok.expires_at = none) := by
  cases hv : rawGet data ad.expires_in_key with
  | none =>
    refine ⟨{ token := access, token_secret := (rawGet data "refresh_token").getD "" },
      by simp only [OAuth2Adapter.parse_token, hacc, hv], rfl, rfl, ?_, fun _ => rfl⟩
    intro v n hv' _ _
    exact Option.noConfusion hv'
  | some v =>
    by_cases hne : v = ""
    · subst hne
      refine ⟨{ token := access, token_secret := (rawGet data "refresh_token").getD "" },
        by simp only [OAuth2Adapter.parse_token, hacc, hv, bne_self_eq_false,
          Bool.false_eq_true, if_false], rfl, rfl, ?_, fun _ => rfl⟩
      intro v' n hv' hne' _
      exact absurd (Option.some_inj.mp hv').symm hne'
    · obtain ⟨n, hn⟩ := Option.isSome_iff_exists.mp (hexp v hv hne)
      refine ⟨{ token := access, token_secret := (rawGet data "refresh_token").getD "",
                expires_at := some (now + n) },
        by simp only [OAuth2Adapter.parse_token, hacc, hv, hn, bne_iff_ne, ne_eq, hne,
          not_false_eq_true, if_true], rfl, rfl, ?_, ?_⟩
      · intro v' n' hv' _ hn'
        obtain rfl : v = v' := Option.some_inj.mp hv'
        rw [hn] at hn'
        obtain rfl : n = n' := Option.some_inj.mp hn'
        rfl
      · intro habs
        rcases habs with h | h
        · exact Option.noConfusion h
        · exact absurd (Option.some_inj.mp h) hne

/-- C6 witness: the spec's concrete example — parsing
`{"access_token": "abc", "expires_in": "3600"}` at `now = 1000` yields
`token = "abc"`, `token_secret = ""`, `expires_at = some 4600`. -/
theorem C6_parse_token_success_witness :
    ∃ tok, OAuth2Adapter.parse_token { provider_id := "p" } 1000
      [("access_token", "abc"), ("expires_in", "3600")] = .ok tok ∧
      tok.token = "abc" ∧ tok.token_secret = "" ∧ tok.expires_at = some 4600 := by
  obtain ⟨tok, h1, h2, h3, h4, _⟩ :=
    C6_parse_token_success { provider_id := "p" } 1000
      [("access_token", "abc"), ("expires_in", "3600")] "abc" (by rfl)
      (by intro v hv hne
          rw [show rawGet [("access_token", "abc"), ("expires_in", "3600")] "expires_in" =
            some "3600" from rfl] at hv
          obtain rfl : "3600" = v := Option.some_inj.mp hv
          decide)
  refine ⟨tok, h1, h2, by simpa using h3, ?_⟩
  have h := h4 "3600" 3600 (by rfl) (by decide) (by decide)
  rw [h]
  rfl

/-- C5 counterexample: the claim asserts that a raw token response lacking
`access_token` makes `ParseToken` fail with the classified
`MalformedTokenError`.  At `{"refresh_token": "r"}` the code instead raises
Python's `KeyError` (from `data["access_token"]`), which is not among the
exception classes classified by the callback's `except` clause. -/
theorem C5_counterexample :
    OAuth2Adapter.parse_token { provider_id := "p" } 0 [("refresh_token", "r")] =
      .error (.keyError "access_token") ∧
    caughtByCallback (.keyError "access_token") = false := ⟨rfl, rfl⟩

/-- C5 (amended): a raw token response lacking `access_token` makes
`parse_token` raise `KeyError`; one whose expiry field is present, non-empty
and unparseable as an integer makes it raise `ValueError`; neither exception
is among the callback's classified (caught) classes, so both propagate
unclassified.  A present-but-empty expiry field is silently ignored instead
of failing. -/
theorem C5_parse_token_failures :
    (∀ (ad : OAuth2Adapter) (now : Int) (data : RawData),
      rawGet data "access_token" = none →
        ad.parse_token now data = .error (.keyError "access_token") ∧
        caughtByCallback (.keyError "access_token") = false) ∧
    (∀ (ad : OAuth2Adapter) (now : Int) (data : RawData) (access v : String),
      rawGet data "access_token" = some access →
      rawGet data ad.expires_in_key = some v → v ≠ "" → pyParseInt v = none →
        ad.parse_token now data = .error (.valueError v) ∧
        caughtByCallback (.valueError v) = false) ∧
    (∀ (ad : OAuth2Adapter) (now : Int) (data : RawData) (access : String),
      rawGet data "access_token" = some access →
      rawGet data ad.expires_in_key = some "" →
        ad.parse_token now data =
          .ok { token := access, token_secret := (rawGet data "refresh_token").getD "" }) := by
  refine ⟨?_, ?_, ?_⟩
  · intro ad now data hacc
    exact ⟨by simp only [OAuth2Adapter.parse_token, hacc], rfl⟩
  · intro ad now data access v hacc hv hne hparse
    exact ⟨by simp only [OAuth2Adapter.parse_token, hacc, hv, hparse, bne_iff_ne, ne_eq,
      hne, not_false_eq_true, if_true], rfl⟩
  · intro ad now data access hacc hv
    simp only [OAuth2Adapter.parse_token, hacc, hv, bne_self_eq_false,
      Bool.false_eq_true, if_false]

/-- C5 witness: a concrete instance of the amended claim — a present,
non-empty, unparseable expiry field raises `ValueError`, not a classified
error. -/
theorem C5_parse_token_failures_witness :
    OAuth2Adapter.parse_token { provider_id := "q" } 5
      [("access_token", "a"), ("expires_in", "zz")] =
      .error (.valueError "zz") ∧
    caughtByCallback (.valueError "zz") = false :=
  C5_parse_token_failures.2.1 { provider_id := "q" } 5
    [("access_token", "a"), ("expires_in", "zz")] "a" "zz" (by rfl) (by rfl)
    (by decide) (by rfl)

/-- C1: for every valid `(code, state)` callback — non-empty `code`, no error
parameter, a `state` parameter whose value is stashed (and not yet consumed)
in the external store — on an adapter supporting state, when the token
exchange, the token parse, and the adapter's `complete_login` succeed,
`dispatch` hands the completion collaborator the adapter's login with
`token` exactly the parsed token and `state` exactly the stashed
pending-login metadata. -/
theorem C1_callback_success (ad : OAuth2Adapter) (env : CallbackEnv) (now : Int)
    (req : Request) (s : String) (meta : StateMeta) (data : RawData)
    (token : SocialToken) (login0 : SocialLogin)
    (hcode : pyTruthy (get_request_param req "code") = true)
    (herr : pyTruthy (get_request_param req "error") = false)
    (hsupp : ad.supports_state = true)
    (hstate : get_request_param req "state" = some s)
    (hstash : lookupStore req.store s = some meta)
    (hex : env.get_access_token ((get_request_param req "code").getD "") = .ok data)
    (hparse : ad.parse_token now data = .ok token)
    (hcomp : env.complete_login token data = .ok login0) :
    (OAuth2CallbackView.dispatch ad env now req).1 =
      .completed { login0 with token := some token, state := meta } := by
  simp [OAuth2CallbackView.dispatch, verify_and_unstash_state, herr, hcode, hsupp,
    hstate, hstash, hex, hparse, hcomp]

/-- C1 witness: the concrete valid callback `code=c0&state=s0` with `s0`
stashed, a well-formed exchange response, and a succeeding adapter. -/
theorem C1_callback_success_witness :
    (OAuth2CallbackView.dispatch demoAdapter demoEnv 1000 demoReq).1 =
      .completed { account := "alice",
                   token := some { token := "abc", token_secret := "",
                                   expires_at := some 4600 },
                   state := [("action", "authenticate")] } :=
  C1_callback_success demoAdapter demoEnv 1000 demoReq "s0" [("action", "authenticate")]
    [("access_token", "abc"), ("expires_in", "3600")]
    { token := "abc", token_secret := "", expires_at := some 4600 }
    { account := "alice" } rfl rfl rfl rfl rfl rfl rfl rfl

/-- C2 counterexample: the claim asserts that whenever the `error` parameter
is present, `dispatch` classifies and terminates without constructing a
client or calling the exchange.  At the concrete request `?error=&code=c2`
the `error` parameter is present (with an empty value), yet the code's
truthiness test skips classification: the client is constructed and the
token exchange is performed (trace `[getClient, tokenExchange "c2"]`), and
the outcome is the rendered exchange failure, not a `Cancelled`/`Unknown`
classification. -/
theorem C2_counterexample :
    OAuth2CallbackView.dispatch demoAdapter errEnv 0
      { params := [("error", ""), ("code", "c2")], store := [] } =
      (.renderError "prov" none (some (.oauth2Error "boom")), [],
       [.getClient, .tokenExchange "c2"]) := rfl

/-- C2 (amended): whenever the `error` parameter is present with a non-empty
value, or the `code` parameter is absent or empty, `dispatch` classifies the
outcome — `Cancelled` exactly when the error value equals the adapter's
`login_cancelled_error`, `Unknown` otherwise (including when neither
parameter is present) — leaves the store untouched, and performs no
collaborator interaction at all (no client construction, no token
exchange). -/
theorem C2_fast_path_classification (ad : OAuth2Adapter) (env : CallbackEnv) (now : Int)
    (req : Request)
    (h : pyTruthy (get_request_param req "error") = true ∨
         pyTruthy (get_request_param req "code") = false) :
    OAuth2CallbackView.dispatch ad env now req =
      (.renderError ad.provider_id
        (some (if get_request_param req "error" == some ad.login_cancelled_error
          then AuthError.cancelled else AuthError.unknown)) none,
       req.store, []) := by
  rcases h with h | h <;> simp [OAuth2CallbackView.dispatch, h]

/-- C2 witness: `error=access_denied` under the default
`login_cancelled_error` classifies as `Cancelled`, with an empty trace. -/
theorem C2_fast_path_classification_witness :
    OAuth2CallbackView.dispatch demoAdapter errEnv 0
      { params := [("error", "access_denied")], store := [] } =
      (.renderError "prov" (some .cancelled) none, [], []) := by
  rw [C2_fast_path_classification demoAdapter errEnv 0
    { params := [("error", "access_denied")], store := [] } (Or.inl rfl)]
  exact rfl

/-- C8: every callback dispatch performs at most one token-exchange call —
the engine never retries the exchange, whether it succeeds or fails. -/
theorem C8_at_most_one_exchange (ad : OAuth2Adapter) (env : CallbackEnv) (now : Int)
    (req : Request) :
    ((OAuth2CallbackView.dispatch ad env now req).2.2.countP isTokenExchange) ≤ 1 := by
  rcases callback_trace_shape ad env now req with h0 | ⟨c, hmem⟩
  · rw [h0]; simp
  · simp only [List.mem_cons, List.mem_singleton, List.not_mem_nil, or_false] at hmem
    rcases hmem with h | h | h | h | h <;> rw [h] <;> simp [isTokenExchange]

/-- C3: state verification at the callback.  (1) With `supports_state`, on
the exchange path, when the callback's `state` value is absent from the
external store (absent, expired, or already consumed — the store holds no
entry for it) `dispatch` fails with the classified state-mismatch error;
(2) verification is a consuming read: after a completed dispatch that
verified state `s`, replaying the same request (same `state` value) against
the resulting store always yields the state-mismatch failure; (3) without
`supports_state`, `dispatch` reads the pending metadata via the un-keyed
unstash fallback (no `verifyState` interaction, an `unstash` interaction
instead) and attaches the head metadata without matching a token. -/
theorem C3_state_verification :
    (∀ (ad : OAuth2Adapter) (env : CallbackEnv) (now : Int) (req : Request)
       (data : RawData) (token : SocialToken) (login0 : SocialLogin),
      ad.supports_state = true →
      pyTruthy (get_request_param req "code") = true →
      pyTruthy (get_request_param req "error") = false →
      env.get_access_token ((get_request_param req "code").getD "") = .ok data →
      ad.parse_token now data = .ok token →
      env.complete_login token data = .ok login0 →
      (∀ s, get_request_param req "state" = some s → lookupStore req.store s = none) →
      (OAuth2CallbackView.dispatch ad env now req).1 =
        .renderError ad.provider_id none (some stateMismatchError)) ∧
    (∀ (ad : OAuth2Adapter) (env : CallbackEnv) (now : Int) (req : Request)
       (s : String) (meta : StateMeta) (data : RawData) (token : SocialToken)
       (login0 : SocialLogin),
      ad.supports_state = true →
      pyTruthy (get_request_param req "code") = true →
      pyTruthy (get_request_param req "error") = false →
      env.get_access_token ((get_request_param req "code").getD "") = .ok data →
      ad.parse_token now data = .ok token →
      env.complete_login token data = .ok login0 →
      get_request_param req "state" = some s →
      lookupStore req.store s = some meta →
      (OAuth2CallbackView.dispatch ad env now
        { req with store := (OAuth2CallbackView.dispatch ad env now req).2.1 }).1 =
        .renderError ad.provider_id none (some stateMismatchError)) ∧
    (∀ (ad : OAuth2Adapter) (env : CallbackEnv) (now : Int) (req : Request)
       (k : String) (meta0 : StateMeta) (rest : StateStore) (data : RawData)
       (token : SocialToken) (login0 : SocialLogin),
      ad.supports_state = false →
      pyTruthy (get_request_param req "code") = true →
      pyTruthy (get_request_param req "error") = false →
      env.get_access_token ((get_request_param req "code").getD "") = .ok data →
      ad.parse_token now data = .ok token →
      env.complete_login token data = .ok login0 →
      req.store = (k, meta0) :: rest →
      (OAuth2CallbackView.dispatch ad env now req).1 =
        .completed { login0 with token := some token, state := meta0 } ∧
      (OAuth2CallbackView.dispatch ad env now req).2.2 =
        [.getClient, .tokenExchange ((get_request_param req "code").getD ""),
         .parseToken, .completeLogin, .unstash]) := by
  refine ⟨?_, ?_, ?_⟩
  · intro ad env now req data token login0 hsupp hcode herr hex hparse hcomp hmiss
    cases hst : get_request_param req "state" with
    | none =>
      simp [OAuth2CallbackView.dispatch, verify_and_unstash_state,
        routeCallbackException, caughtByCallback, stateMismatchError, hsupp, hcode,
        herr, hex, hparse, hcomp, hst]
    | some s =>
      have hl := hmiss s hst
      simp [OAuth2CallbackView.dispatch, verify_and_unstash_state,
        routeCallbackException, caughtByCallback, stateMismatchError, hsupp, hcode,
        herr, hex, hparse, hcomp, hst, hl]
  · intro ad env now req s meta data token login0 hsupp hcode herr hex hparse hcomp
      hst hstash
    have h1 : (OAuth2CallbackView.dispatch ad env now req).2.1 =
        consumeStore req.store s := by
      simp [OAuth2CallbackView.dispatch, verify_and_unstash_state, hsupp, hcode, herr,
        hex, hparse, hcomp, hst, hstash]
    rw [h1]
    simp [OAuth2CallbackView.dispatch, verify_and_unstash_state,
      routeCallbackException, caughtByCallback, stateMismatchError,
      get_request_param_store, hsupp, hcode, herr, hex, hparse, hcomp, hst,
      lookupStore_consumeStore]
  · intro ad env now req k meta0 rest data token login0 hsupp hcode herr hex hparse
      hcomp hstore
    constructor <;>
      simp [OAuth2CallbackView.dispatch, unstash_state, hsupp, hcode, herr, hex,
        hparse, hcomp, hstore]

/-- C3 witness: a concrete replay — the demo callback completes once,
consuming `s0`; dispatching the same request against the resulting store
yields the classified state-mismatch failure. -/
theorem C3_state_verification_witness :
    (OAuth2CallbackView.dispatch demoAdapter demoEnv 1000
      { demoReq with
        store := (OAuth2CallbackView.dispatch demoAdapter demoEnv 1000 demoReq).2.1 }).1 =
      .renderError "prov" none (some stateMismatchError) :=
  C3_state_verification.2.1 demoAdapter demoEnv 1000 demoReq "s0"
    [("action", "authenticate")] [("access_token", "abc"), ("expires_in", "3600")]
    { token := "abc", token_secret := "", expires_at := some 4600 }
    { account := "alice" } rfl rfl rfl rfl rfl rfl rfl rfl

/-- C7: on the exchange path, the CSRF-state verification interaction is
always preceded by the token exchange, the token parse, and the adapter's
`complete_login`: any trace containing a `verifyState` event is exactly the
full sequence exchange-parse-complete-verify.  In particular, when state
verification fails, the one-time code has already been exchanged and the
provider contacted. -/
theorem C7_exchange_before_verification (ad : OAuth2Adapter) (env : CallbackEnv)
    (now : Int) (req : Request) (st : Option String)
    (h : Event.verifyState st ∈ (OAuth2CallbackView.dispatch ad env now req).2.2) :
    ∃ c, (OAuth2CallbackView.dispatch ad env now req).2.2 =
      [.getClient, .tokenExchange c, .parseToken, .completeLogin, .verifyState st] := by
  rcases callback_trace_shape ad env now req with h0 | ⟨c, hmem⟩
  · rw [h0] at h; simp at h
  · simp only [List.mem_cons, List.not_mem_nil, or_false] at hmem
    rcases hmem with h1 | h1 | h1 | h1 | h1
    · rw [h1] at h; simp at h
    · rw [h1] at h; simp at h
    · rw [h1] at h; simp at h
    · rw [h1] at h
      have hst : st = get_request_param req "state" := by simpa using h
      exact ⟨c, by rw [h1, hst]⟩
    · rw [h1] at h; simp at h

/-- C7 witness: the demo callback's trace contains a state verification, and
the theorem yields the full exchange-before-verification sequence. -/
theorem C7_exchange_before_verification_witness :
    ∃ c, (OAuth2CallbackView.dispatch demoAdapter demoEnv 1000 demoReq).2.2 =
      [.getClient, .tokenExchange c, .parseToken, .completeLogin,
       .verifyState (some "s0")] :=
  C7_exchange_before_verification demoAdapter demoEnv 1000 demoReq (some "s0")
    (by rw [show (OAuth2CallbackView.dispatch demoAdapter demoEnv 1000 demoReq).2.2 =
          [.getClient, .tokenExchange "c0", .parseToken, .completeLogin,
           .verifyState (some "s0")] from rfl]
        simp)

/-- C4 counterexample: the claim asserts no failure is ever thrown across
the flow boundary.  At a callback whose exchange returns a response lacking
`access_token`, `dispatch` raises `KeyError` (uncaught by the `except`
clause) instead of returning a classified result. -/
theorem C4_counterexample :
    (OAuth2CallbackView.dispatch demoAdapter badTokenEnv 0
      { params := [("code", "c1")], store := [] }).1 =
      .raised (.keyError "access_token") := rfl

/-- C4 (amended): failures of the classified kinds are returned as rendered
results, not thrown: the callback never raises provided the exchange and
the adapter completion fail only with classes of the `except` clause and
every successful exchange response is well-formed (`access_token` present,
expiry parseable when non-empty); the login view never raises provided the
redirect-URL build fails only with `OAuth2Error`.  (Outside these
provisos — e.g. a malformed token response — `KeyError`/`ValueError`
propagate uncaught, per the counterexample.) -/
theorem C4_classified_results :
    (∀ (ad : OAuth2Adapter) (env : CallbackEnv) (now : Int) (req : Request),
      (∀ c e, env.get_access_token c = .error e → caughtByCallback e = true) →
      (∀ c data, env.get_access_token c = .ok data →
        (rawGet data "access_token").isSome ∧
        ∀ v, rawGet data ad.expires_in_key = some v → v ≠ "" → (pyParseInt v).isSome) →
      (∀ t d e, env.complete_login t d = .error e → caughtByCallback e = true) →
      ∀ e, (OAuth2CallbackView.dispatch ad env now req).1 ≠ .raised e) ∧
    (∀ (ad : OAuth2Adapter) (env : LoginEnv) (req : Request) (fresh : String)
       (meta : StateMeta),
      (∀ u p s e, env.get_redirect_url u p s = .error e → ∃ m, e = .oauth2Error m) →
      ∀ e, (OAuth2LoginView.dispatch ad env req fresh meta).1 ≠ .raised e) := by
  constructor
  · intro ad env now req hexc hdata hcl e
    cases herr : pyTruthy (get_request_param req "error") with
    | true => simp [OAuth2CallbackView.dispatch, herr]
    | false =>
      cases hcode : pyTruthy (get_request_param req "code") with
      | false => simp [OAuth2CallbackView.dispatch, herr, hcode]
      | true =>
        cases hex : env.get_access_token ((get_request_param req "code").getD "") with
        | error e2 =>
          simp [OAuth2CallbackView.dispatch, routeCallbackException, herr, hcode, hex,
            hexc _ _ hex]
        | ok data =>
          obtain ⟨hsome, hwf⟩ := hdata _ _ hex
          obtain ⟨token, hp⟩ := parse_token_ok_of_wf ad now data hsome hwf
          cases hc : env.complete_login token data with
          | error e3 =>
            simp [OAuth2CallbackView.dispatch, routeCallbackException, herr, hcode,
              hex, hp, hc, hcl _ _ _ hc]
          | ok login0 =>
            cases hs : ad.supports_state with
            | true =>
              rcases hv : verify_and_unstash_state req.store
                  (get_request_param req "state") with ⟨res, store1⟩
              cases res with
              | error e4 =>
                simp [OAuth2CallbackView.dispatch, routeCallbackException, herr,
                  hcode, hex, hp, hc, hs, hv, verify_error_classified _ _ _ _ hv]
              | ok meta =>
                simp [OAuth2CallbackView.dispatch, herr, hcode, hex, hp, hc, hs, hv]
            | false =>
              rcases hu : unstash_state req.store with ⟨res, store1⟩
              cases res with
              | error e4 =>
                simp [OAuth2CallbackView.dispatch, routeCallbackException, herr,
                  hcode, hex, hp, hc, hs, hu, unstash_error_classified _ _ _ hu]
              | ok meta =>
                simp [OAuth2CallbackView.dispatch, herr, hcode, hex, hp, hc, hs, hu]
  · intro ad env req fresh meta hred e
    cases hr : env.get_redirect_url ad.authorize_url
        (env.get_auth_params (loginAction req)) fresh with
    | ok url => simp [OAuth2LoginView.dispatch, stash_state, hr]
    | error e2 =>
      obtain ⟨m, rfl⟩ := hred _ _ _ _ hr
      simp [OAuth2LoginView.dispatch, stash_state, hr]

/-- C4 witness: with well-behaved collaborators the demo callback does not
raise. -/
theorem C4_classified_results_witness :
    (OAuth2CallbackView.dispatch demoAdapter demoEnv 1000 demoReq).1 ≠
      .raised (.keyError "access_token") :=
  C4_classified_results.1 demoAdapter demoEnv 1000 demoReq
    (fun _ e h => Except.noConfusion h)
    (fun c data h => by
      have h2 : (Except.ok [("access_token", "abc"), ("expires_in", "3600")] :
          Except PyError RawData) = .ok data := h
      obtain rfl := Except.ok.inj h2
      refine ⟨by decide, ?_⟩
      intro v hv hne
      have hv2 : (some "3600" : Option String) = some v := hv
      obtain rfl : "3600" = v := Option.some_inj.mp hv2
      decide)
    (fun _ _ e h => Except.noConfusion h)
    (.keyError "access_token")

/-- C9 counterexample: the claim asserts the CSRF state is stashed after the
authorization URL has been built.  In the concrete login dispatch the trace
is `[getClient, getAuthParams, stashState, buildRedirectURL]`: the only
`stashState` event (index 2) precedes the only `buildRedirectURL` event
(index 3) — the state is stashed before the redirect URL is built. -/
theorem C9_counterexample :
    (OAuth2LoginView.dispatch { provider_id := "prov", authorize_url := "https://auth" }
      demoLoginEnv { params := [], store := [] } "fresh1"
      [("action", "authenticate")]).2.2 =
      [.getClient, .getAuthParams "authenticate", .stashState, .buildRedirectURL] ∧
    ([Event.getClient, .getAuthParams "authenticate", .stashState,
      .buildRedirectURL].indexOf Event.stashState <
     [Event.getClient, .getAuthParams "authenticate", .stashState,
      .buildRedirectURL].indexOf Event.buildRedirectURL) := ⟨rfl, by decide⟩

/-- C9 (amended): every login dispatch resolves provider, app and client
(building the callback URL), reads the authorize endpoint and the auth
params, then generates and stashes the fresh CSRF state, and only then
builds the authorization redirect URL — which is constructed with the
stashed state token — before returning the redirect: the trace is always
`[getClient, getAuthParams action, stashState, buildRedirectURL]`, the
store gains the fresh entry, and a returned redirect URL is the client's
URL built from the stashed `fresh` state. -/
theorem C9_stash_before_redirect_build (ad : OAuth2Adapter) (env : LoginEnv)
    (req : Request) (fresh : String) (meta : StateMeta) :
    (OAuth2LoginView.dispatch ad env req fresh meta).2.2 =
      [.getClient, .getAuthParams (loginAction req), .stashState, .buildRedirectURL] ∧
    (OAuth2LoginView.dispatch ad env req fresh meta).2.1 = (fresh, meta) :: req.store ∧
    (∀ url, (OAuth2LoginView.dispatch ad env req fresh meta).1 = .redirect url →
      env.get_redirect_url ad.authorize_url (env.get_auth_params (loginAction req))
        fresh = .ok url) := by
  refine ⟨?_, ?_, ?_⟩
  · cases hr : env.get_redirect_url ad.authorize_url
        (env.get_auth_params (loginAction req)) fresh with
    | ok url => simp [OAuth2LoginView.dispatch, stash_state, hr]
    | error e => simp [OAuth2LoginView.dispatch, stash_state, hr]
  · cases hr : env.get_redirect_url ad.authorize_url
        (env.get_auth_params (loginAction req)) fresh with
    | ok url => simp [OAuth2LoginView.dispatch, stash_state, hr]
    | error e => simp [OAuth2LoginView.dispatch, stash_state, hr]
  · intro url hurl
    cases hr : env.get_redirect_url ad.authorize_url
        (env.get_auth_params (loginAction req)) fresh with
    | ok u =>
      simp only [OAuth2LoginView.dispatch, stash_state, hr] at hurl
      simp only [LoginResult.redirect.injEq] at hurl
      subst hurl
      rfl
    | error e =>
      simp only [OAuth2LoginView.dispatch, stash_state, hr] at hurl
      cases e <;> simp at hurl

/-- C9 witness: in the concrete login dispatch the returned redirect URL is
the client's URL built with the stashed fresh state. -/
theorem C9_stash_before_redirect_build_witness :
    demoLoginEnv.get_redirect_url "https://auth"
      (demoLoginEnv.get_auth_params (loginAction { params := [], store := [] }))
      "fresh1" = .ok "https://auth?state=fresh1" :=
  (C9_stash_before_redirect_build
    { provider_id := "prov", authorize_url := "https://auth" } demoLoginEnv
    { params := [], store := [] } "fresh1" [("action", "authenticate")]).2.2
    "https://auth?state=fresh1" rfl

/-- C10: a login request whose query string carries no `action` parameter
uses the default action `authenticate`: the provider's auth params are
requested for `authenticate`, and any returned redirect URL is built from
those params. -/
theorem C10_default_action (ad : OAuth2Adapter) (env : LoginEnv) (req : Request)
    (fresh : String) (meta : StateMeta)
    (h : req.params.find? (fun p => p.1 == "action") = none) :
    Event.getAuthParams AuthAction.AUTHENTICATE ∈
      (OAuth2LoginView.dispatch ad env req fresh meta).2.2 ∧
    (∀ url, (OAuth2LoginView.dispatch ad env req fresh meta).1 = .redirect url →
      env.get_redirect_url ad.authorize_url
        (env.get_auth_params AuthAction.AUTHENTICATE) fresh = .ok url) := by
  have ha : loginAction req = AuthAction.AUTHENTICATE := by
    simp [loginAction, h]
  constructor
  · cases hr : env.get_redirect_url ad.authorize_url
        (env.get_auth_params AuthAction.AUTHENTICATE) fresh with
    | ok url => simp [OAuth2LoginView.dispatch, stash_state, ha, hr]
    | error e => simp [OAuth2LoginView.dispatch, stash_state, ha, hr]
  · intro url hurl
    cases hr : env.get_redirect_url ad.authorize_url
        (env.get_auth_params AuthAction.AUTHENTICATE) fresh with
    | ok u =>
      simp only [OAuth2LoginView.dispatch, stash_state, ha, hr] at hurl
      simp only [LoginResult.redirect.injEq] at hurl
      subst hurl
      rfl
    | error e =>
      simp only [OAuth2LoginView.dispatch, stash_state, ha, hr] at hurl
      cases e <;> simp at hurl

/-- C10 witness: the concrete login request `?next=/home` (no `action`) asks
the provider for auth params under `authenticate`. -/
theorem C10_default_action_witness :
    Event.getAuthParams AuthAction.AUTHENTICATE ∈
      (OAuth2LoginView.dispatch { provider_id := "prov", authorize_url := "https://auth" }
        demoLoginEnv { params := [("next", "/home")], store := [] } "f2" []).2.2 ∧
    (∀ url, (OAuth2LoginView.dispatch
        { provider_id := "prov", authorize_url := "https://auth" }
        demoLoginEnv { params := [("next", "/home")], store := [] } "f2" []).1 =
        .redirect url →
      demoLoginEnv.get_redirect_url "https://auth"
        (demoLoginEnv.get_auth_params AuthAction.AUTHENTICATE) "f2" = .ok url) :=
  C10_default_action { provider_id := "prov", authorize_url := "https://auth" }
    demoLoginEnv { params := [("next", "/home")], store := [] } "f2" [] rfl

end Allauth
